import Mathlib

/-!
Verification of the freight-driver simulation (`main.py`).

The Python program simulates drivers doing courses: per course it sums
stochastic costs (route fine, petrol, wage, refueling, police fine, vehicle
malfunction) and profits (clamped load weight minus theft loss), advancing a
simpy clock by `driving_time` per course until `24 * HORIZON`.

Embedding notes:
* Python floats are modelled as `ℚ`; all random draws are supplied by an
  `Oracle` of streams indexed by the current `number_of_courses`.
* Python's `x % 0` raises `ZeroDivisionError`; fallible operations return
  `Except SimErr`.
* Line 181 of the source reads
  `if self.number_of_courses % self.refueling_frequency == 0 & self.number_of_courses != 0:`.
  By Python precedence `&` binds tighter than comparisons, so this is the
  chained comparison `(count % freq) == (0 & count)  and  (0 & count) != 0`;
  it is embedded literally with `Nat.land`.
* simpy clock semantics of `env.run(until=H)`: the stop event is scheduled
  with URGENT priority, so events at exactly time `H` are not processed.  The
  driver process computes a course block at times `k * driving_time` for every
  `k ≥ 0` with `k * driving_time < H`, and `number_of_courses` is incremented
  on each resume at `k * driving_time` for `k ≥ 1` with `k * driving_time < H`
  (for `0 < driving_time`).  Hence the terminal count is `⌈H/dt⌉ - 1` and one
  final course block runs without its increment.
-/

/-- Python-level runtime errors that the simulation code can raise. -/
inductive SimErr where
  | divByZero  : SimErr
  | valueError : SimErr
deriving DecidableEq, Repr

/-- `HORIZON = 3*365` (days), `main.py` line 8. -/
def HORIZON : ℕ := 3 * 365

/-- `AVERAGE_HOURLY_WAGE = 20`, line 10. -/
def AVERAGE_HOURLY_WAGE : ℚ := 20

/-- `AVERAGE_HOURLY_WAGE_STD = 5`, line 11. -/
def AVERAGE_HOURLY_WAGE_STD : ℚ := 5

/-- `AVERAGE_LORRY_WEIGHT = 2000` (kg), line 12. -/
def AVERAGE_LORRY_WEIGHT : ℚ := 2000

/-- `PRICE_PER_KG = 10` (PLN), line 15. -/
def PRICE_PER_KG : ℚ := 10

/-- Streams of random draws, indexed by the `number_of_courses` value current
when the corresponding `np.random` / `randint` call is made.  `gross1` feeds
the `_calculate_profit_weight` call made from `_calculate_profits`, `gross2`
the independent second call made from `_cost_load_theft`. -/
structure Oracle where
  wageTime      : ℕ → ℚ
  wageRate      : ℕ → ℚ
  refuelLiters  : ℕ → ℕ
  fineDraw      : ℕ → ℚ
  pointsDraw    : ℕ → ℕ
  malfThreshold : ℕ → ℚ
  repairCost    : ℕ → ℚ
  theft         : ℕ → Bool
  gross1        : ℕ → ℚ
  gross2        : ℕ → ℚ

/-- The `DriverSimulation` object: constructor parameters plus the mutable
state fields initialised in `__init__` (lines 56-77). -/
structure DriverSim where
  drivingTime              : ℚ
  drivingTimeStd           : ℚ
  distance                 : ℚ
  petrolCost               : ℚ
  petrolUsage              : ℚ
  fine                     : ℚ
  refuelingFrequency       : ℕ
  literLo                  : ℕ
  literHi                  : ℕ
  weightLimit              : ℚ
  fineFrequency            : ℕ
  finePaidFrequency        : ℕ
  theftProbability         : ℚ
  hourlyWage               : ℚ
  hourlyWageStd            : ℚ
  totalCost                : ℚ
  totalProfit              : ℚ
  totalPenaltyPoints       : ℕ
  numberOfCourses          : ℕ
  finePaidNumberOfCourses  : ℕ
  totalDistanceAfterRepair : ℚ
deriving DecidableEq

namespace DriverSim

/-- `DriverSimulation.__init__` (lines 56-77): stores the parameters and zeroes
every accumulator; no validation of any kind is performed. -/
def init (drivingTime drivingTimeStd distance petrolCost petrolUsage fine : ℚ)
    (refuelingFrequency literLo literHi : ℕ) (weightLimit : ℚ)
    (fineFrequency finePaidFrequency : ℕ) (theftProbability : ℚ) : DriverSim :=
  { drivingTime := drivingTime
    drivingTimeStd := drivingTimeStd
    distance := distance
    petrolCost := petrolCost
    petrolUsage := petrolUsage
    fine := fine
    refuelingFrequency := refuelingFrequency
    literLo := literLo
    literHi := literHi
    weightLimit := weightLimit
    fineFrequency := fineFrequency
    finePaidFrequency := finePaidFrequency
    theftProbability := theftProbability
    hourlyWage := AVERAGE_HOURLY_WAGE
    hourlyWageStd := AVERAGE_HOURLY_WAGE_STD
    totalCost := 0
    totalProfit := 0
    totalPenaltyPoints := 0
    numberOfCourses := 0
    finePaidNumberOfCourses := 0
    totalDistanceAfterRepair := 0 }

/-- `_cost_route_fine` (lines 144-151). -/
def costRouteFine (s : DriverSim) : ℚ := s.fine

/-- `_cost_petrol` (lines 153-160). -/
def costPetrol (s : DriverSim) : ℚ := s.distance * s.petrolUsage * s.petrolCost

/-- `_cost_wage` (lines 162-172); the two normal draws come from the oracle
(their means and stds are the `driving_time`/`hourly_wage` fields). -/
def costWage (_s : DriverSim) (tDraw wDraw : ℚ) : ℚ := tDraw * wDraw

/-- `_cost_refueling` (lines 174-188).  The Python guard
`count % freq == 0 & count != 0` parses as the chained comparison
`(count % freq) == (0 & count)  and  (0 & count) != 0`; `count % freq` is
evaluated first and raises `ZeroDivisionError` when `freq = 0`. -/
def costRefueling (s : DriverSim) (liters : ℕ) : Except SimErr ℚ :=
  if s.refuelingFrequency = 0 then .error .divByZero
  else if s.numberOfCourses % s.refuelingFrequency = 0 &&& s.numberOfCourses
          ∧ 0 &&& s.numberOfCourses ≠ 0 then
    .ok ((liters : ℚ) * s.petrolCost)
  else
    .ok 0

/-- The outer periodic police check of `_cost_caught_by_police` (line 197-198):
`fine_frequency != 0` and `count % fine_frequency == 0 and count != 0`. -/
def policeHit (s : DriverSim) : Bool :=
  s.fineFrequency != 0 && s.numberOfCourses % s.fineFrequency == 0
    && s.numberOfCourses != 0

/-- The full driver-paid condition of `_cost_caught_by_police` (line 199):
the outer check plus `count % fine_frequency_paid_by_driver == 0`. -/
def policePaidHit (s : DriverSim) : Bool :=
  s.policeHit && s.numberOfCourses % s.finePaidFrequency == 0

/-- `_cost_caught_by_police` (lines 190-209): returns the fine value and the
updated object (the method increments `fine_paid_number_of_courses` and
`total_penalty_points` in place).  When the outer check fires with
`fine_frequency_paid_by_driver = 0`, the inner modulo raises
`ZeroDivisionError`. -/
def costCaughtByPolice (s : DriverSim) (fineDraw : ℚ) (pointsDraw : ℕ) :
    Except SimErr (ℚ × DriverSim) :=
  if s.fineFrequency ≠ 0 then
    if s.numberOfCourses % s.fineFrequency = 0 ∧ s.numberOfCourses ≠ 0 then
      if s.finePaidFrequency = 0 then .error .divByZero
      else if s.numberOfCourses % s.finePaidFrequency = 0 ∧ s.numberOfCourses ≠ 0 then
        .ok (fineDraw,
          { s with finePaidNumberOfCourses := s.finePaidNumberOfCourses + 1,
                   totalPenaltyPoints := s.totalPenaltyPoints + pointsDraw })
      else .ok (0, s)
    else .ok (0, s)
  else .ok (0, s)

/-- `_cost_vehicle_malfunction` (lines 211-217); threshold and repair cost are
oracle draws. -/
def costVehicleMalfunction (s : DriverSim) (threshold repair : ℚ) : ℚ :=
  if s.totalDistanceAfterRepair > threshold then repair else 0

/-- `_calculate_profit_weight` (lines 109-114): clamp the gross draw to the
weight limit and subtract the empty lorry weight. -/
def calculateProfitWeight (s : DriverSim) (gross : ℚ) : ℚ :=
  (if gross > s.weightLimit then s.weightLimit else gross) - AVERAGE_LORRY_WEIGHT

/-- `_cost_load_theft` (lines 219-232): on a theft, the loss is a FRESH
`_calculate_profit_weight()` draw (`gross2`) times `PRICE_PER_KG`. -/
def costLoadTheft (s : DriverSim) (theft : Bool) (gross2 : ℚ) : ℚ :=
  if theft then s.calculateProfitWeight gross2 * PRICE_PER_KG else 0

/-- `_calculate_profits` (lines 116-126). -/
def calculateProfits (s : DriverSim) (gross1 : ℚ) (theft : Bool) (gross2 : ℚ) : ℚ :=
  s.calculateProfitWeight gross1 * PRICE_PER_KG - s.costLoadTheft theft gross2

/-- `_calculate_costs` (lines 128-142): sums the six cost terms in source
order; `_cost_caught_by_police` additionally updates the object. -/
def calculateCosts (s : DriverSim) (o : Oracle) : Except SimErr (ℚ × DriverSim) :=
  match s.costRefueling (o.refuelLiters s.numberOfCourses) with
  | .error e => .error e
  | .ok refuel =>
    match s.costCaughtByPolice (o.fineDraw s.numberOfCourses) (o.pointsDraw s.numberOfCourses) with
    | .error e => .error e
    | .ok (policeFine, s') =>
      .ok (s.costRouteFine + s.costPetrol
            + s.costWage (o.wageTime s.numberOfCourses) (o.wageRate s.numberOfCourses)
            + refuel + policeFine
            + s.costVehicleMalfunction (o.malfThreshold s.numberOfCourses)
                (o.repairCost s.numberOfCourses),
           s')

/-- Lines 102-104 of `_simulation`: accumulate costs, profits and distance
(the part of the loop body executed before `yield env.timeout`). -/
def courseBlock (s : DriverSim) (o : Oracle) : Except SimErr DriverSim :=
  match s.calculateCosts o with
  | .error e => .error e
  | .ok (c, s') =>
    .ok { s' with
          totalCost := s'.totalCost + c,
          totalProfit := s'.totalProfit
            + s.calculateProfits (o.gross1 s.numberOfCourses)
                (o.theft s.numberOfCourses) (o.gross2 s.numberOfCourses),
          totalDistanceAfterRepair := s'.totalDistanceAfterRepair + s.distance }

/-- One full loop iteration of `_simulation` (lines 100-107): the course block
followed by the `number_of_courses` increment after the timeout. -/
def fullStep (s : DriverSim) (o : Oracle) : Except SimErr DriverSim :=
  match s.courseBlock o with
  | .error e => .error e
  | .ok s' => .ok { s' with numberOfCourses := s'.numberOfCourses + 1 }

/-- `n` full loop iterations of `_simulation`. -/
def iterate (s : DriverSim) (o : Oracle) : ℕ → Except SimErr DriverSim
  | 0 => .ok s
  | n + 1 =>
    match s.iterate o n with
    | .error e => .error e
    | .ok s' => s'.fullStep o

/-- Terminal `number_of_courses` of a run stopped by `env.run(until=H)`: the
number of resumes at times `k * dt < H`, `k ≥ 1`, i.e. `⌈H/dt⌉ - 1` for
`0 < dt` (the stop event has URGENT priority, so the resume at exactly `H`
never happens). -/
def coursesCompleted (dt H : ℚ) : ℕ := ((H / dt).ceil - 1).toNat

/-- `env.process(self._simulation(env)); env.run(until=H)` (cf. lines 86-88,
parametrised by the horizon): `coursesCompleted` full iterations followed by
the final course block whose increment is cut off by the stop event.
`env.run` raises `ValueError` when `until <= now`.  Meaningful for
`0 < drivingTime` (with `drivingTime = 0` the Python process would loop
forever at time 0; negative timeouts raise in simpy). -/
def runUntil (s : DriverSim) (o : Oracle) (H : ℚ) : Except SimErr DriverSim :=
  if H ≤ 0 then .error .valueError
  else
    match s.iterate o (coursesCompleted s.drivingTime H) with
    | .error e => .error e
    | .ok s' => s'.courseBlock o

/-- `run_simulation` (lines 79-89): run until `24 * HORIZON` and return
`(total_cost, total_profit, number_of_courses)`. -/
def runSimulation (s : DriverSim) (o : Oracle) : Except SimErr (ℚ × ℚ × ℕ) :=
  match s.runUntil o ((24 : ℚ) * (HORIZON : ℚ)) with
  | .error e => .error e
  | .ok s' => .ok (s'.totalCost, s'.totalProfit, s'.numberOfCourses)

/-- Pure form of the state change performed by `_cost_caught_by_police`. -/
def policeUpd (s : DriverSim) (pd : ℕ) : DriverSim :=
  { s with
    finePaidNumberOfCourses :=
      s.finePaidNumberOfCourses + (if s.policePaidHit then 1 else 0),
    totalPenaltyPoints :=
      s.totalPenaltyPoints + (if s.policePaidHit then pd else 0) }

/-- Pure form of one course block (costs + profits + distance), valid when no
`ZeroDivisionError` occurs; the refueling term is `0` because the `&`-typo
guard of `_cost_refueling` is unsatisfiable. -/
def coursePure (s : DriverSim) (o : Oracle) : DriverSim :=
  { s with
    totalCost := s.totalCost
      + (s.costRouteFine + s.costPetrol
          + s.costWage (o.wageTime s.numberOfCourses) (o.wageRate s.numberOfCourses)
          + 0 + (if s.policePaidHit then o.fineDraw s.numberOfCourses else 0)
          + s.costVehicleMalfunction (o.malfThreshold s.numberOfCourses)
              (o.repairCost s.numberOfCourses)),
    totalProfit := s.totalProfit
      + s.calculateProfits (o.gross1 s.numberOfCourses)
          (o.theft s.numberOfCourses) (o.gross2 s.numberOfCourses),
    totalPenaltyPoints :=
      s.totalPenaltyPoints + (if s.policePaidHit then o.pointsDraw s.numberOfCourses else 0),
    finePaidNumberOfCourses :=
      s.finePaidNumberOfCourses + (if s.policePaidHit then 1 else 0),
    totalDistanceAfterRepair := s.totalDistanceAfterRepair + s.distance }

/-- Pure form of one full loop iteration. -/
def stepPure (s : DriverSim) (o : Oracle) : DriverSim :=
  { s.coursePure o with numberOfCourses := (s.coursePure o).numberOfCourses + 1 }

/-- Pure form of `n` loop iterations. -/
def iteratePure (s : DriverSim) (o : Oracle) : ℕ → DriverSim
  | 0 => s
  | n + 1 => (s.iteratePure o n).stepPure o

end DriverSim

/-- The `Simulate` object (lines 245-264): the same parameters plus
`n_drivers` (a Python `int`, possibly `<= 0`). -/
structure Simulate where
  drivingTime        : ℚ
  drivingTimeStd     : ℚ
  distance           : ℚ
  petrolCost         : ℚ
  petrolUsage        : ℚ
  fine               : ℚ
  refuelingFrequency : ℕ
  literLo            : ℕ
  literHi            : ℕ
  weightLimit        : ℚ
  fineFrequency      : ℕ
  finePaidFrequency  : ℕ
  theftProbability   : ℚ
  nDrivers           : ℤ

/-- `generate_cost` (lines 266-295): run `n_drivers` fresh `DriverSimulation`
instances (`while i <= self.n_drivers`, so zero iterations when
`n_drivers < 1`) and sum the three outputs.  The `i`-th driver's randomness
comes from `os i`. -/
def Simulate.generateCost (sim : Simulate) (os : ℕ → Oracle) : Except SimErr (ℚ × ℚ × ℕ) :=
  (List.range sim.nDrivers.toNat).foldlM
    (fun acc i =>
      match (DriverSim.init sim.drivingTime sim.drivingTimeStd sim.distance
              sim.petrolCost sim.petrolUsage sim.fine sim.refuelingFrequency
              sim.literLo sim.literHi sim.weightLimit sim.fineFrequency
              sim.finePaidFrequency sim.theftProbability).runSimulation (os i) with
      | .error e => .error e
      | .ok r => .ok (acc.1 + r.1, acc.2.1 + r.2.1, acc.2.2 + r.2.2))
    ((0 : ℚ), (0 : ℚ), (0 : ℕ))

/-- The slow-route preset (`main.py` lines 22-34, as passed to
`DriverSimulation` by `Simulate`): drive time 10±1 h, 620 km, petrol 5.12,
usage 10/100, route fine 0, refuel every 6 courses with 15-30 liters, weight
limit 4500, police check every 3 courses, driver-paid every 10, theft 0.1. -/
def slowSim : DriverSim :=
  DriverSim.init 10 1 620 (512/100) (1/10) 0 6 15 30 4500 3 10 (1/10)

/-- An all-zero random source (every draw 0 / `false`). -/
def oZero : Oracle :=
  ⟨fun _ => 0, fun _ => 0, fun _ => 0, fun _ => 0, fun _ => 0,
   fun _ => 0, fun _ => 0, fun _ => false, fun _ => 0, fun _ => 0⟩

/-- The slow-route `DriverSimulation` at an arbitrary point of the course
loop: `number_of_courses = k`, accumulators still zero. -/
def sC (k : ℕ) : DriverSim := { slowSim with numberOfCourses := k }

/-- A driver with `fine_frequency = 1`, `fine_frequency_paid_by_driver = 1`
(every course is a driver-paid police fine) and `refueling_frequency = 1`. -/
def pEveryCourseFine : DriverSim := DriverSim.init 10 0 0 0 0 0 1 0 0 0 1 1 0

/-- A random source whose police draws are `fine = 100`, `points = 5`
(a legal `np.random.choice([100,200,500])` / `randint(1,5)` outcome). -/
def oFine5 : Oracle :=
  ⟨fun _ => 0, fun _ => 0, fun _ => 0, fun _ => 100, fun _ => 5,
   fun _ => 0, fun _ => 0, fun _ => false, fun _ => 0, fun _ => 0⟩

/-- Scenario A driver: `drive_time_hours = 10`, `drive_time_std = 0`,
valid periodic divisors (`refuel_frequency = 6`, no police checks). -/
def pScenA : DriverSim := DriverSim.init 10 0 0 0 0 0 6 15 30 0 0 0 0

/-- A driver with `police_fine_frequency = 3` but
`fine_paid_by_driver_frequency = 0` (and `refueling_frequency = 1`). -/
def pPaidZero : DriverSim := DriverSim.init 0 0 0 0 0 0 1 0 0 0 3 0 0

/-- A `Simulate` with the slow-route numbers but `refuel_frequency = 0` (a
value §4.1 of the spec says construction must reject) and `n_drivers = 0`. -/
def simC6 : Simulate :=
  { drivingTime := 10, drivingTimeStd := 1, distance := 620, petrolCost := 512/100,
    petrolUsage := 1/10, fine := 0, refuelingFrequency := 0, literLo := 15, literHi := 30,
    weightLimit := 4500, fineFrequency := 3, finePaidFrequency := 10,
    theftProbability := 1/10, nDrivers := 0 }

namespace DriverSim

theorem costRefueling_eq_ok (s : DriverSim) (l : ℕ)
    (hr : s.refuelingFrequency ≠ 0) : s.costRefueling l = .ok 0 := by
  unfold costRefueling
  rw [if_neg hr, if_neg]
  simp [Nat.zero_and]

theorem costRefueling_ok_inv (s : DriverSim) (l : ℕ) (q : ℚ)
    (h : s.costRefueling l = .ok q) : q = 0 ∧ s.refuelingFrequency ≠ 0 := by
  by_cases hr : s.refuelingFrequency = 0
  · rw [costRefueling, if_pos hr] at h
    exact absurd h (by simp)
  · rw [costRefueling_eq_ok s l hr] at h
    exact ⟨(Except.ok.injEq _ _).mp h |>.symm, hr⟩

theorem policePaidHit_eq (s : DriverSim) :
    s.policePaidHit = true ↔
      (s.fineFrequency ≠ 0 ∧ (s.numberOfCourses % s.fineFrequency = 0 ∧ s.numberOfCourses ≠ 0)
        ∧ s.numberOfCourses % s.finePaidFrequency = 0) := by
  simp [policePaidHit, policeHit, Bool.and_eq_true, and_assoc]

theorem costCaughtByPolice_eq_ok (s : DriverSim) (fd : ℚ) (pd : ℕ)
    (hp : s.policeHit = true → s.finePaidFrequency ≠ 0) :
    s.costCaughtByPolice fd pd =
      .ok ((if s.policePaidHit then fd else 0), s.policeUpd pd) := by
  unfold costCaughtByPolice policeUpd
  by_cases hff : s.fineFrequency = 0
  · rw [if_neg (by simp [hff])]
    have hh : s.policePaidHit = false := by
      simp [policePaidHit, policeHit, hff]
    simp [hh]
  · rw [if_pos hff]
    by_cases houter : s.numberOfCourses % s.fineFrequency = 0 ∧ s.numberOfCourses ≠ 0
    · rw [if_pos houter]
      have hpf : s.finePaidFrequency ≠ 0 := by
        apply hp
        simp [policeHit, hff, houter.1, houter.2]
      rw [if_neg hpf]
      by_cases hinner : s.numberOfCourses % s.finePaidFrequency = 0 ∧ s.numberOfCourses ≠ 0
      · rw [if_pos hinner]
        have hh : s.policePaidHit = true := by
          rw [policePaidHit_eq]
          exact ⟨hff, houter, hinner.1⟩
        simp [hh]
      · rw [if_neg hinner]
        have hh : s.policePaidHit = false := by
          rw [Bool.eq_false_iff, Ne, policePaidHit_eq]
          rintro ⟨-, h2, h3⟩
          exact hinner ⟨h3, h2.2⟩
        simp [hh]
    · rw [if_neg houter]
      have hh : s.policePaidHit = false := by
        rw [Bool.eq_false_iff, Ne, policePaidHit_eq]
        rintro ⟨-, h2, -⟩
        exact houter h2
      simp [hh]

theorem policeHit_eq (s : DriverSim) :
    s.policeHit = true ↔
      (s.fineFrequency ≠ 0 ∧ s.numberOfCourses % s.fineFrequency = 0
        ∧ s.numberOfCourses ≠ 0) := by
  simp [policeHit, Bool.and_eq_true, and_assoc]

theorem costCaughtByPolice_ok_inv (s : DriverSim) (fd : ℚ) (pd : ℕ) (q : ℚ)
    (s' : DriverSim) (h : s.costCaughtByPolice fd pd = .ok (q, s')) :
    q = (if s.policePaidHit then fd else 0) ∧ s' = s.policeUpd pd := by
  by_cases hp : s.policeHit = true → s.finePaidFrequency ≠ 0
  · rw [costCaughtByPolice_eq_ok s fd pd hp] at h
    simp only [Except.ok.injEq, Prod.mk.injEq] at h
    exact ⟨h.1.symm, h.2.symm⟩
  · exfalso
    push_neg at hp
    obtain ⟨hhit, hpf⟩ := hp
    obtain ⟨hff, hmod, hnz⟩ := (policeHit_eq s).mp hhit
    rw [costCaughtByPolice, if_pos hff, if_pos ⟨hmod, hnz⟩, if_pos hpf] at h
    exact absurd h (by simp)

theorem courseBlock_eq_ok (s : DriverSim) (o : Oracle)
    (hr : s.refuelingFrequency ≠ 0) (hp : s.policeHit = true → s.finePaidFrequency ≠ 0) :
    s.courseBlock o = .ok (s.coursePure o) := by
  unfold courseBlock calculateCosts
  rw [costRefueling_eq_ok s _ hr,
      costCaughtByPolice_eq_ok s _ _ hp]
  rfl

theorem courseBlock_ok_inv (s : DriverSim) (o : Oracle) (s₁ : DriverSim)
    (h : s.courseBlock o = .ok s₁) : s₁ = s.coursePure o := by
  unfold courseBlock calculateCosts at h
  rcases hrf : s.costRefueling (o.refuelLiters s.numberOfCourses) with e | q
  · rw [hrf] at h; exact absurd h (by simp)
  · rw [hrf] at h
    obtain ⟨hq0, hr⟩ := costRefueling_ok_inv s _ q hrf
    rcases hpol : s.costCaughtByPolice (o.fineDraw s.numberOfCourses)
        (o.pointsDraw s.numberOfCourses) with e | r
    · rw [hpol] at h; exact absurd h (by simp)
    · obtain ⟨hq, hs'⟩ := costCaughtByPolice_ok_inv s _ _ r.1 r.2 (by rw [← hpol])
      rw [hpol] at h
      simp only [Except.ok.injEq] at h
      rw [← h, coursePure, hq0, hq, hs', policeUpd]

theorem fullStep_ok_inv (s : DriverSim) (o : Oracle) (s₁ : DriverSim)
    (h : s.fullStep o = .ok s₁) : s₁ = s.stepPure o := by
  unfold fullStep at h
  rcases hcb : s.courseBlock o with e | s' <;> rw [hcb] at h
  · exact absurd h (by simp)
  · rw [stepPure, ← courseBlock_ok_inv s o s' hcb]
    exact ((Except.ok.injEq _ _).mp h).symm

theorem iterate_ok_inv (s : DriverSim) (o : Oracle) (n : ℕ) (s₁ : DriverSim)
    (h : s.iterate o n = .ok s₁) : s₁ = s.iteratePure o n := by
  induction n generalizing s₁ with
  | zero =>
    rw [iterate] at h
    exact ((Except.ok.injEq _ _).mp h).symm
  | succ n ih =>
    rw [iterate] at h
    rcases hit : s.iterate o n with e | s' <;> rw [hit] at h
    · exact absurd h (by simp)
    · rw [iteratePure, ← ih s' hit]
      exact fullStep_ok_inv s' o s₁ h

theorem iteratePure_refuelingFrequency (p : DriverSim) (o : Oracle) (n : ℕ) :
    (p.iteratePure o n).refuelingFrequency = p.refuelingFrequency := by
  induction n with
  | zero => rfl
  | succ n ih => rw [iteratePure]; exact ih

theorem iteratePure_fineFrequency (p : DriverSim) (o : Oracle) (n : ℕ) :
    (p.iteratePure o n).fineFrequency = p.fineFrequency := by
  induction n with
  | zero => rfl
  | succ n ih => rw [iteratePure]; exact ih

theorem iteratePure_finePaidFrequency (p : DriverSim) (o : Oracle) (n : ℕ) :
    (p.iteratePure o n).finePaidFrequency = p.finePaidFrequency := by
  induction n with
  | zero => rfl
  | succ n ih => rw [iteratePure]; exact ih

theorem iteratePure_distance (p : DriverSim) (o : Oracle) (n : ℕ) :
    (p.iteratePure o n).distance = p.distance := by
  induction n with
  | zero => rfl
  | succ n ih => rw [iteratePure]; exact ih

theorem iteratePure_drivingTime (p : DriverSim) (o : Oracle) (n : ℕ) :
    (p.iteratePure o n).drivingTime = p.drivingTime := by
  induction n with
  | zero => rfl
  | succ n ih => rw [iteratePure]; exact ih

theorem iteratePure_numberOfCourses (p : DriverSim) (o : Oracle) (n : ℕ) :
    (p.iteratePure o n).numberOfCourses = p.numberOfCourses + n := by
  induction n with
  | zero => rfl
  | succ n ih =>
    rw [iteratePure]
    show (p.iteratePure o n).numberOfCourses + 1 = p.numberOfCourses + (n + 1)
    omega

theorem iteratePure_totalDistanceAfterRepair (p : DriverSim) (o : Oracle) (n : ℕ) :
    (p.iteratePure o n).totalDistanceAfterRepair
      = p.totalDistanceAfterRepair + (n : ℚ) * p.distance := by
  induction n with
  | zero => simp [iteratePure]
  | succ n ih =>
    rw [iteratePure]
    show (p.iteratePure o n).totalDistanceAfterRepair + (p.iteratePure o n).distance = _
    rw [ih, iteratePure_distance]
    push_cast
    ring

theorem stepPure_totalPenaltyPoints_le (s : DriverSim) (o : Oracle) :
    s.totalPenaltyPoints ≤ (s.stepPure o).totalPenaltyPoints :=
  Nat.le_add_right _ _

/-- Under the divisor preconditions, every loop iteration succeeds and agrees
with the pure step. -/
theorem iterate_eq_ok (p : DriverSim) (o : Oracle)
    (hr : p.refuelingFrequency ≠ 0)
    (hp : p.fineFrequency ≠ 0 → p.finePaidFrequency ≠ 0) (n : ℕ) :
    p.iterate o n = .ok (p.iteratePure o n) := by
  induction n with
  | zero => rfl
  | succ n ih =>
    rw [iterate, ih]
    have hr' : (p.iteratePure o n).refuelingFrequency ≠ 0 := by
      rw [iteratePure_refuelingFrequency]; exact hr
    have hp' : (p.iteratePure o n).policeHit = true
        → (p.iteratePure o n).finePaidFrequency ≠ 0 := by
      intro hh
      obtain ⟨hff, -, -⟩ := (policeHit_eq _).mp hh
      rw [iteratePure_fineFrequency] at hff
      rw [iteratePure_finePaidFrequency]
      exact hp hff
    show (p.iteratePure o n).fullStep o = _
    rw [fullStep, courseBlock_eq_ok _ o hr' hp']
    rfl

theorem runUntil_eq_ok (p : DriverSim) (o : Oracle)
    (hr : p.refuelingFrequency ≠ 0)
    (hp : p.fineFrequency ≠ 0 → p.finePaidFrequency ≠ 0) (H : ℚ) (hH : 0 < H) :
    p.runUntil o H
      = .ok ((p.iteratePure o (coursesCompleted p.drivingTime H)).coursePure o) := by
  rw [runUntil, if_neg (by exact absurd · (not_le.mpr hH)),
      iterate_eq_ok p o hr hp]
  show (p.iteratePure o (coursesCompleted p.drivingTime H)).courseBlock o = _
  have hr' : (p.iteratePure o (coursesCompleted p.drivingTime H)).refuelingFrequency ≠ 0 := by
    rw [iteratePure_refuelingFrequency]; exact hr
  have hp' : (p.iteratePure o (coursesCompleted p.drivingTime H)).policeHit = true
      → (p.iteratePure o (coursesCompleted p.drivingTime H)).finePaidFrequency ≠ 0 := by
    intro hh
    obtain ⟨hff, -, -⟩ := (policeHit_eq _).mp hh
    rw [iteratePure_fineFrequency] at hff
    rw [iteratePure_finePaidFrequency]
    exact hp hff
  rw [courseBlock_eq_ok _ o hr' hp']

theorem ratCeil_eq_intCeil (q : ℚ) : q.ceil = ⌈q⌉ := by
  symm
  rw [Int.ceil_eq_iff]
  by_cases hden : q.den = 1
  · have hnum : (q.num : ℚ) = q := (Rat.den_eq_one_iff q).mp hden
    rw [Rat.ceil, if_pos hden]
    exact ⟨by rw [hnum]; linarith, le_of_eq hnum.symm⟩
  · have hfl : Rat.ceil q = ⌊q⌋ + 1 := by
      rw [Rat.ceil, if_neg hden, ← Rat.floor_def]
    rw [hfl]
    have h1 : (⌊q⌋ : ℚ) < q := by
      rcases lt_or_eq_of_le (Int.floor_le q) with h | h
      · exact h
      · exact absurd (by rw [← h]; exact Rat.den_intCast ⌊q⌋) hden
    have h2 := Int.lt_floor_add_one q
    constructor
    · push_cast
      linarith
    · push_cast
      linarith

/-- `coursesCompleted dt H` is exactly the number of resumes of the driver
process strictly before the horizon: for `k ≥ 1`, the resume at time `k * dt`
happens iff `k * dt < H` iff `k ≤ coursesCompleted dt H`. -/
theorem coursesCompleted_spec (dt H : ℚ) (hdt : 0 < dt) (k : ℕ) :
    ((k : ℚ) * dt < H ↔ (k : ℤ) ≤ ⌈H / dt⌉ - 1)
      ∧ coursesCompleted dt H = (⌈H / dt⌉ - 1).toNat := by
  refine ⟨?_, by rw [coursesCompleted, ratCeil_eq_intCeil]⟩
  have h1 : ((k : ℚ) * dt < H) ↔ ((k : ℤ) < ⌈H / dt⌉) := by
    rw [Int.lt_ceil]
    push_cast
    rw [lt_div_iff₀ hdt]
  rw [h1]
  omega

end DriverSim

/-- C1: evaluation of `_cost_refueling` at the failing input.  With the
slow-route preset (`refuel_frequency = 6`, `petrol_unit_cost = 5.12`) the
refueling cost is `0` at EVERY course count — including the qualifying count
`6`, where the claim requires a cost in `[76.8, 153.6]`; `0` is below that
interval.  Cause: line 181 uses `&` where `and` was intended, so the guard
`count % freq == 0 & count != 0` is always false. -/
theorem c1_refuel_cost_always_zero (k liters : ℕ) :
    (sC k).costRefueling liters = Except.ok 0 ∧ ¬ ((768 / 10 : ℚ) ≤ 0) := by
  constructor
  · exact DriverSim.costRefueling_eq_ok _ liters (show (6:ℕ) ≠ 0 by decide)
  · norm_num

/-- C7: the profit-weight computation clamps the gross draw to
`weight_limit`, so profit weight plus the empty lorry weight never exceeds
`weight_limit`; and the result can be negative (e.g. gross draw `-1`). -/
theorem c7_weight_clamp (s : DriverSim) (gross : ℚ) :
    s.calculateProfitWeight gross + AVERAGE_LORRY_WEIGHT ≤ s.weightLimit
      ∧ s.calculateProfitWeight (-1) < 0 := by
  unfold DriverSim.calculateProfitWeight
  constructor
  · split_ifs with h
    · linarith
    · linarith [not_lt.mp h]
  · rw [AVERAGE_LORRY_WEIGHT]
    split_ifs with h
    · linarith
    · linarith

/-- C5 amended: the theft loss is an independent second profit-weight draw
(`gross2`) times `PRICE_PER_KG`, not the same course's profit weight; the
net profit of a theft course is the difference of the two draws times
`PRICE_PER_KG`, in general nonzero. -/
theorem c5_theft_loss_independent_draw (s : DriverSim) (g1 g2 : ℚ) :
    s.calculateProfits g1 true g2
        = (s.calculateProfitWeight g1 - s.calculateProfitWeight g2) * PRICE_PER_KG
      ∧ s.calculateProfits g1 false g2 = s.calculateProfitWeight g1 * PRICE_PER_KG := by
  unfold DriverSim.calculateProfits DriverSim.costLoadTheft
  constructor
  · simp
    ring
  · simp

/-- C5 counterexample: on the slow route, a theft course with gross draws
3000 (profit) and 2500 (theft loss) contributes profit `5000`, not `0`. -/
theorem c5_theft_course_profit_nonzero :
    slowSim.calculateProfits 3000 true 2500 = 5000 ∧ (5000 : ℚ) ≠ 0 := by
  constructor
  · norm_num [DriverSim.calculateProfits, DriverSim.costLoadTheft,
      DriverSim.calculateProfitWeight, slowSim, DriverSim.init,
      AVERAGE_LORRY_WEIGHT, PRICE_PER_KG]
  · norm_num

/-- C3 counterexample: with `police_fine_frequency = 3` and
`fine_paid_by_driver_frequency = 10`, course `10` does NOT produce a fine:
`10 % 3 = 1`, so the outer periodic check already fails and
`_cost_caught_by_police` returns `(0, unchanged state)`, contradicting the
claim that course `10` produces a non-zero driver-paid fine. -/
theorem c3_course10_no_fine :
    (sC 10).costCaughtByPolice 100 3 = .ok (0, sC 10)
      ∧ (sC 10).policeHit = false := by
  constructor
  · rfl
  · rfl

/-- C3 amended: over courses `0..30` of the slow route, the outer periodic
check fires exactly at `3,6,...,30`; a non-zero driver-paid fine with added
penalty points occurs exactly at counts divisible by both `3` and `10`,
i.e. only at `30`; every other count (including `10` and `20`) yields
`(0, unchanged state)`. -/
theorem c3_police_periodicity (k : ℕ) (fd : ℚ) (pd : ℕ) (hk : k ≤ 30)
    (hfd : fd = 100 ∨ fd = 200 ∨ fd = 500) :
    ((sC k).policeHit = true ↔ k ∈ [3, 6, 9, 12, 15, 18, 21, 24, 27, 30])
      ∧ (k = 30 →
          (sC k).costCaughtByPolice fd pd
              = .ok (fd, { sC k with
                  finePaidNumberOfCourses := (sC k).finePaidNumberOfCourses + 1,
                  totalPenaltyPoints := (sC k).totalPenaltyPoints + pd })
            ∧ fd ≠ 0)
      ∧ (k ≠ 30 →
          (sC k).costCaughtByPolice fd pd = .ok (0, sC k)) := by
  have hfd0 : fd ≠ 0 := by rcases hfd with h | h | h <;> rw [h] <;> norm_num
  have hhit : (sC k).policeHit = true ↔ (k % 3 = 0 ∧ k ≠ 0) := by
    rw [DriverSim.policeHit_eq]
    show (3 : ℕ) ≠ 0 ∧ k % 3 = 0 ∧ k ≠ 0 ↔ _
    simp
  refine ⟨?_, ?_, ?_⟩
  · rw [hhit]
    simp only [List.mem_cons, List.not_mem_nil, or_false]
    omega
  · rintro rfl
    refine ⟨?_, hfd0⟩
    have hp : (sC 30).policeHit = true → (sC 30).finePaidFrequency ≠ 0 :=
      fun _ => show (10:ℕ) ≠ 0 by decide
    rw [DriverSim.costCaughtByPolice_eq_ok _ fd pd hp]
    have hpp : (sC 30).policePaidHit = true := by decide
    rw [hpp]
    show Except.ok (fd, DriverSim.policeUpd (sC 30) pd) = _
    rw [DriverSim.policeUpd, hpp]
    rfl
  · intro hne
    have hp : (sC k).policeHit = true → (sC k).finePaidFrequency ≠ 0 :=
      fun _ => show (10:ℕ) ≠ 0 by decide
    rw [DriverSim.costCaughtByPolice_eq_ok _ fd pd hp]
    have hpp : (sC k).policePaidHit = false := by
      rw [Bool.eq_false_iff, Ne, DriverSim.policePaidHit_eq]
      show ¬ ((3:ℕ) ≠ 0 ∧ (k % 3 = 0 ∧ k ≠ 0) ∧ k % 10 = 0)
      rintro ⟨-, ⟨h3, h0⟩, h10⟩
      omega
    rw [hpp]
    show Except.ok (0, DriverSim.policeUpd (sC k) pd) = _
    rw [DriverSim.policeUpd, hpp]
    simp

/-- C9: the per-course cost computation (`_calculate_costs`) is total iff
`refueling_frequency > 0` and (`fine_frequency > 0` implies
`fine_paid_by_driver_frequency > 0`); and when `fine_frequency > 0` with
`fine_paid_by_driver_frequency = 0`, `_cost_caught_by_police` raises
`ZeroDivisionError` exactly at the counts that are non-zero multiples of
`fine_frequency` (hence at the first such course it reaches). -/
theorem c9_cost_totality (p : DriverSim) :
    ((∀ (o : Oracle) (k : ℕ), ∃ r,
        ({ p with numberOfCourses := k } : DriverSim).calculateCosts o = .ok r)
      ↔ (0 < p.refuelingFrequency
          ∧ (0 < p.fineFrequency → 0 < p.finePaidFrequency)))
      ∧ (∀ (k : ℕ) (fd : ℚ) (pd : ℕ),
          0 < p.fineFrequency → p.finePaidFrequency = 0 →
          (({ p with numberOfCourses := k } : DriverSim).costCaughtByPolice fd pd
              = .error .divByZero
            ↔ (k % p.fineFrequency = 0 ∧ k ≠ 0))) := by
  have herr : ∀ (k : ℕ) (fd : ℚ) (pd : ℕ), 0 < p.fineFrequency → p.finePaidFrequency = 0 →
      (k % p.fineFrequency = 0 ∧ k ≠ 0) →
      ({ p with numberOfCourses := k } : DriverSim).costCaughtByPolice fd pd
        = .error .divByZero := by
    intro k fd pd hff hpf hk
    rw [DriverSim.costCaughtByPolice, if_pos, if_pos, if_pos]
    · exact hpf
    · exact hk
    · exact Nat.pos_iff_ne_zero.mp hff
  constructor
  · constructor
    · intro htot
      constructor
      · by_contra hrf
        have hrf0 : p.refuelingFrequency = 0 := by omega
        obtain ⟨r, hr⟩ := htot oZero 0
        rw [DriverSim.calculateCosts, DriverSim.costRefueling, if_pos hrf0] at hr
        exact absurd hr (by simp)
      · intro hff
        by_contra hpf
        have hpf0 : p.finePaidFrequency = 0 := by omega
        obtain ⟨r, hr⟩ := htot oZero p.fineFrequency
        rw [DriverSim.calculateCosts] at hr
        rcases hrf : ({ p with numberOfCourses := p.fineFrequency } : DriverSim).costRefueling
            (oZero.refuelLiters p.fineFrequency) with e | q
        · rw [hrf] at hr
          exact absurd hr (by simp)
        · rw [hrf, herr p.fineFrequency _ _ hff hpf0
              ⟨Nat.mod_self _, Nat.pos_iff_ne_zero.mp hff⟩] at hr
          exact absurd hr (by simp)
    · rintro ⟨hrf, hff⟩ o k
      have hr : ({ p with numberOfCourses := k } : DriverSim).refuelingFrequency ≠ 0 :=
        Nat.pos_iff_ne_zero.mp hrf
      have hp : ({ p with numberOfCourses := k } : DriverSim).policeHit = true
          → ({ p with numberOfCourses := k } : DriverSim).finePaidFrequency ≠ 0 := by
        intro hh
        obtain ⟨h1, -, -⟩ := (DriverSim.policeHit_eq _).mp hh
        exact Nat.pos_iff_ne_zero.mp (hff (Nat.pos_iff_ne_zero.mpr h1))
      rw [DriverSim.calculateCosts, DriverSim.costRefueling_eq_ok _ _ hr,
          DriverSim.costCaughtByPolice_eq_ok _ _ _ hp]
      exact ⟨_, rfl⟩
  · intro k fd pd hff hpf
    constructor
    · intro herr2
      by_contra hk
      have : ({ p with numberOfCourses := k } : DriverSim).costCaughtByPolice fd pd
          = .ok (0, { p with numberOfCourses := k }) := by
        rw [DriverSim.costCaughtByPolice, if_pos (Nat.pos_iff_ne_zero.mp hff), if_neg hk]
      rw [this] at herr2
      exact absurd herr2 (by simp)
    · exact herr k fd pd hff hpf

namespace DriverSim

theorem stepPure_totalPenaltyPoints (s : DriverSim) (o : Oracle) :
    (s.stepPure o).totalPenaltyPoints
      = s.totalPenaltyPoints
        + (if s.policePaidHit then o.pointsDraw s.numberOfCourses else 0) := rfl

theorem stepPure_finePaidNumberOfCourses (s : DriverSim) (o : Oracle) :
    (s.stepPure o).finePaidNumberOfCourses
      = s.finePaidNumberOfCourses + (if s.policePaidHit then 1 else 0) := rfl

theorem stepPure_numberOfCourses (s : DriverSim) (o : Oracle) :
    (s.stepPure o).numberOfCourses = s.numberOfCourses + 1 := rfl

theorem stepPure_totalDistanceAfterRepair (s : DriverSim) (o : Oracle) :
    (s.stepPure o).totalDistanceAfterRepair
      = s.totalDistanceAfterRepair + s.distance := rfl

end DriverSim

/-- C2 counterexample: with a driver-paid fine on every course and points
draw 5 (a legal `randint(1,5)` outcome is ≤ 5; 5 used here), after 6 loop
iterations `penalty_points = 25 ≥ 24`, yet the next transition yields
`penalty_points = 30 ≠ 0` and just runs course 7 — there is no suspension
reset and no `365*24`-hour pause in the code. -/
theorem c2_no_suspension_counterexample :
    (pEveryCourseFine.iterate oFine5 6).map (·.totalPenaltyPoints) = .ok 25
      ∧ (pEveryCourseFine.iterate oFine5 7).map (·.totalPenaltyPoints) = .ok 30
      ∧ (pEveryCourseFine.iterate oFine5 7).map (·.numberOfCourses) = .ok 7
      ∧ 24 ≤ 25 ∧ (30 : ℕ) ≠ 0 :=
  ⟨rfl, rfl, rfl, by decide, by decide⟩

/-- C2 amended: the code has no suspension transition at all: across every
loop transition `penalty_points` never decreases (in particular it is never
reset to `0` once it reached `24`), and the driver just performs the next
course (`number_of_courses` increments by one; the clock advance is the
per-course `driving_time`, never `365*24`). -/
theorem c2_penalty_points_never_reset (p : DriverSim) (o : Oracle) (n : ℕ)
    (s s' : DriverSim) (hs : p.iterate o n = .ok s)
    (hs' : p.iterate o (n + 1) = .ok s') :
    s.totalPenaltyPoints ≤ s'.totalPenaltyPoints
      ∧ (24 ≤ s.totalPenaltyPoints →
          24 ≤ s'.totalPenaltyPoints ∧ s'.totalPenaltyPoints ≠ 0)
      ∧ s'.numberOfCourses = s.numberOfCourses + 1 := by
  have h1 : s = p.iteratePure o n := DriverSim.iterate_ok_inv p o n s hs
  have h2 : s' = p.iteratePure o (n + 1) := DriverSim.iterate_ok_inv p o (n + 1) s' hs'
  have hstep : p.iteratePure o (n + 1) = (p.iteratePure o n).stepPure o := rfl
  subst h1 h2
  rw [hstep, DriverSim.stepPure_totalPenaltyPoints, DriverSim.stepPure_numberOfCourses]
  refine ⟨Nat.le_add_right _ _, fun h24 => ?_, rfl⟩
  omega

/-- C10: `total_penalty_points` is monotonically nondecreasing along the
run; on each transition it either stays (no driver-paid fine, and
`fine_paid_number_of_courses` also stays) or grows by the `randint(1,5)`
draw of that course while `fine_paid_number_of_courses` grows by exactly 1 —
increases happen exactly on a driver-paid police fine. -/
theorem c10_penalty_increments (p : DriverSim) (o : Oracle) (n : ℕ)
    (s s' : DriverSim) (hs : p.iterate o n = .ok s)
    (hs' : p.iterate o (n + 1) = .ok s')
    (hpd : ∀ k, 1 ≤ o.pointsDraw k ∧ o.pointsDraw k ≤ 5) :
    s.totalPenaltyPoints ≤ s'.totalPenaltyPoints
      ∧ ((s'.totalPenaltyPoints = s.totalPenaltyPoints
            ∧ s'.finePaidNumberOfCourses = s.finePaidNumberOfCourses
            ∧ s.policePaidHit = false)
        ∨ (s.policePaidHit = true
            ∧ s'.totalPenaltyPoints = s.totalPenaltyPoints + o.pointsDraw s.numberOfCourses
            ∧ 1 ≤ o.pointsDraw s.numberOfCourses
            ∧ o.pointsDraw s.numberOfCourses ≤ 5
            ∧ s'.finePaidNumberOfCourses = s.finePaidNumberOfCourses + 1)) := by
  have h1 : s = p.iteratePure o n := DriverSim.iterate_ok_inv p o n s hs
  have h2 : s' = p.iteratePure o (n + 1) := DriverSim.iterate_ok_inv p o (n + 1) s' hs'
  have hstep : p.iteratePure o (n + 1) = (p.iteratePure o n).stepPure o := rfl
  subst h1 h2
  rw [hstep, DriverSim.stepPure_totalPenaltyPoints,
      DriverSim.stepPure_finePaidNumberOfCourses]
  refine ⟨Nat.le_add_right _ _, ?_⟩
  by_cases hh : (p.iteratePure o n).policePaidHit
  · right
    rw [hh, if_pos rfl, if_pos rfl]
    exact ⟨rfl, rfl, (hpd _).1, (hpd _).2, rfl⟩
  · left
    rw [Bool.not_eq_true] at hh
    rw [hh]
    simp

/-- C8: `distance_since_repair` grows by exactly `distance_km` on every
course and is never reset (after `n` courses from a fresh start it is
exactly `n * distance_km`, whether or not repairs were triggered); the
malfunction repair cost of the course at count `n` is charged exactly when
that accumulated distance exceeds the course's fresh threshold draw. -/
theorem c8_distance_never_reset (p : DriverSim) (o : Oracle) (n : ℕ)
    (s s' : DriverSim) (hs : p.iterate o n = .ok s)
    (hs' : p.iterate o (n + 1) = .ok s')
    (h0 : p.totalDistanceAfterRepair = 0) :
    s'.totalDistanceAfterRepair = s.totalDistanceAfterRepair + s.distance
      ∧ s.totalDistanceAfterRepair = (n : ℚ) * p.distance
      ∧ s.costVehicleMalfunction (o.malfThreshold s.numberOfCourses)
            (o.repairCost s.numberOfCourses)
          = (if (n : ℚ) * p.distance > o.malfThreshold s.numberOfCourses
             then o.repairCost s.numberOfCourses else 0) := by
  have h1 : s = p.iteratePure o n := DriverSim.iterate_ok_inv p o n s hs
  have h2 : s' = p.iteratePure o (n + 1) := DriverSim.iterate_ok_inv p o (n + 1) s' hs'
  have hstep : p.iteratePure o (n + 1) = (p.iteratePure o n).stepPure o := rfl
  subst h1 h2
  have hdist : (p.iteratePure o n).totalDistanceAfterRepair = (n : ℚ) * p.distance := by
    rw [DriverSim.iteratePure_totalDistanceAfterRepair, h0, zero_add]
  refine ⟨?_, hdist, ?_⟩
  · rw [hstep, DriverSim.stepPure_totalDistanceAfterRepair]
  · rw [DriverSim.costVehicleMalfunction, hdist]

/-- C4 amended: with zero suspension events and zero rest interval the
terminal `course_count` is `⌈horizon/drive_time⌉ - 1` — the number of
`k ≥ 1` with `k * drive_time` strictly below the horizon, since simpy's
`run(until=H)` stop event pre-empts the resume at exactly `H` — regardless
of cost randomness.  For Scenario A (`drive_time = 10`, `horizon = 240`)
this is `23`, one less than `floor(240/10) = 24`. -/
theorem c4_course_count_formula (p : DriverSim) (o : Oracle) (H : ℚ)
    (hdt : 0 < p.drivingTime) (hH : 0 < H)
    (hr : p.refuelingFrequency ≠ 0)
    (hp : p.fineFrequency ≠ 0 → p.finePaidFrequency ≠ 0)
    (h0 : p.numberOfCourses = 0) :
    ∃ s, p.runUntil o H = .ok s
      ∧ s.numberOfCourses = DriverSim.coursesCompleted p.drivingTime H
      ∧ (∀ k : ℕ, ((k : ℚ) * p.drivingTime < H ↔ (k : ℤ) ≤ ⌈H / p.drivingTime⌉ - 1))
      ∧ DriverSim.coursesCompleted 10 240 = 23 := by
  refine ⟨_, DriverSim.runUntil_eq_ok p o hr hp H hH, ?_, ?_, ?_⟩
  · show ((p.iteratePure o (DriverSim.coursesCompleted p.drivingTime H)).coursePure
        o).numberOfCourses = _
    have hc : ((p.iteratePure o (DriverSim.coursesCompleted p.drivingTime H)).coursePure
        o).numberOfCourses
        = (p.iteratePure o (DriverSim.coursesCompleted p.drivingTime H)).numberOfCourses := rfl
    rw [hc, DriverSim.iteratePure_numberOfCourses, h0, Nat.zero_add]
  · intro k
    exact (DriverSim.coursesCompleted_spec p.drivingTime H hdt k).1
  · have h240 : (240 : ℚ) / 10 = ((24 : ℤ) : ℚ) := by norm_num
    rw [(DriverSim.coursesCompleted_spec 10 240 (by norm_num) 0).2, h240, Int.ceil_intCast]
    decide

/-- C4 counterexample: in Scenario A (`drive_time_hours = 10`,
`drive_time_std = 0`, no rest, horizon `240` h) the terminal course count is
`23`, not `floor(240/10) = 24`: the resume at time `240` is cut off by the
URGENT stop event of `env.run(until=240)`. -/
theorem c4_scenarioA_counterexample :
    (∃ s, pScenA.runUntil oZero 240 = .ok s ∧ s.numberOfCourses = 23)
      ∧ (23 : ℤ) ≠ ⌊(240 : ℚ) / 10⌋ := by
  constructor
  · refine ⟨_, DriverSim.runUntil_eq_ok pScenA oZero (by decide)
      (fun h => absurd rfl h) 240 (by norm_num), ?_⟩
    have hc : ((pScenA.iteratePure oZero
          (DriverSim.coursesCompleted pScenA.drivingTime 240)).coursePure
        oZero).numberOfCourses
        = (pScenA.iteratePure oZero
            (DriverSim.coursesCompleted pScenA.drivingTime 240)).numberOfCourses := rfl
    rw [hc, DriverSim.iteratePure_numberOfCourses]
    have hdt : pScenA.drivingTime = 10 := rfl
    have h240 : (240 : ℚ) / 10 = ((24 : ℤ) : ℚ) := by norm_num
    rw [hdt, (DriverSim.coursesCompleted_spec 10 240 (by norm_num) 0).2, h240,
        Int.ceil_intCast]
    decide
  · have h240 : (240 : ℚ) / 10 = ((24 : ℤ) : ℚ) := by norm_num
    rw [h240, Int.floor_intCast]
    decide

/-- C6 counterexample: a `Simulate` with `refuel_frequency = 0` (which the
claim says must fail construction) and `n_drivers = 0 < 1` (which the claim
says must make the fleet run fail) constructs fine and `generate_cost`
returns `(0, 0, 0)` without any error. -/
theorem c6_no_validation_counterexample :
    simC6.generateCost (fun _ => oZero) = .ok (0, 0, 0)
      ∧ ∀ e : SimErr, simC6.generateCost (fun _ => oZero) ≠ .error e := by
  refine ⟨rfl, fun e h => ?_⟩
  exact Except.noConfusion ((rfl :
    simC6.generateCost (fun _ => oZero) = .ok (0, 0, 0)).symm.trans h)

/-- C6 amended: no validation exists anywhere.  `generate_cost` with
`n_drivers < 1` simply runs zero drivers and returns `(0, 0, 0)` with no
error; an invalid `refuel_frequency = 0` passes construction and only
surfaces later, as a `ZeroDivisionError` inside `_cost_refueling`. -/
theorem c6_generateCost_n_lt_one (sim : Simulate) (os : ℕ → Oracle)
    (h : sim.nDrivers < 1) :
    sim.generateCost os = .ok (0, 0, 0)
      ∧ (∀ (s : DriverSim) (l : ℕ), s.refuelingFrequency = 0 →
          s.costRefueling l = .error .divByZero) := by
  constructor
  · have h0 : sim.nDrivers.toNat = 0 := by omega
    rw [Simulate.generateCost, h0]
    rfl
  · intro s l h0
    rw [DriverSim.costRefueling, if_pos h0]

/-- C6 witness. -/
theorem c6_generateCost_witness :
    simC6.generateCost (fun _ => oZero) = .ok (0, 0, 0)
      ∧ ({ slowSim with refuelingFrequency := 0 } : DriverSim).costRefueling 5
          = .error .divByZero :=
  ⟨(c6_generateCost_n_lt_one simC6 (fun _ => oZero) (by decide)).1,
   (c6_generateCost_n_lt_one simC6 (fun _ => oZero) (by decide)).2 _ 5 rfl⟩

/-- C2 witness. -/
theorem c2_penalty_points_witness :
    (pEveryCourseFine.iteratePure oFine5 6).totalPenaltyPoints
        ≤ (pEveryCourseFine.iteratePure oFine5 7).totalPenaltyPoints
      ∧ (24 ≤ (pEveryCourseFine.iteratePure oFine5 6).totalPenaltyPoints →
          24 ≤ (pEveryCourseFine.iteratePure oFine5 7).totalPenaltyPoints
            ∧ (pEveryCourseFine.iteratePure oFine5 7).totalPenaltyPoints ≠ 0)
      ∧ (pEveryCourseFine.iteratePure oFine5 7).numberOfCourses
          = (pEveryCourseFine.iteratePure oFine5 6).numberOfCourses + 1 :=
  c2_penalty_points_never_reset pEveryCourseFine oFine5 6 _ _ rfl rfl

/-- C3 witness. -/
theorem c3_police_periodicity_witness :
    ((sC 30).policeHit = true ↔ (30 : ℕ) ∈ [3, 6, 9, 12, 15, 18, 21, 24, 27, 30])
      ∧ ((30 : ℕ) = 30 →
          (sC 30).costCaughtByPolice 100 3
              = .ok (100, { sC 30 with
                  finePaidNumberOfCourses := (sC 30).finePaidNumberOfCourses + 1,
                  totalPenaltyPoints := (sC 30).totalPenaltyPoints + 3 })
            ∧ (100 : ℚ) ≠ 0)
      ∧ ((30 : ℕ) ≠ 30 → (sC 30).costCaughtByPolice 100 3 = .ok (0, sC 30)) :=
  c3_police_periodicity 30 100 3 (by decide) (Or.inl rfl)

/-- C4 witness. -/
theorem c4_course_count_witness :
    ∃ s, pScenA.runUntil oZero 240 = .ok s
      ∧ s.numberOfCourses = DriverSim.coursesCompleted pScenA.drivingTime 240
      ∧ (∀ k : ℕ, ((k : ℚ) * pScenA.drivingTime < 240
            ↔ (k : ℤ) ≤ ⌈(240 : ℚ) / pScenA.drivingTime⌉ - 1))
      ∧ DriverSim.coursesCompleted 10 240 = 23 :=
  c4_course_count_formula pScenA oZero 240 (show (0 : ℚ) < 10 by norm_num)
    (by norm_num) (by decide) (fun h => absurd rfl h) rfl

/-- C8 witness. -/
theorem c8_distance_witness :
    (slowSim.iteratePure oZero 2).totalDistanceAfterRepair
        = (slowSim.iteratePure oZero 1).totalDistanceAfterRepair
          + (slowSim.iteratePure oZero 1).distance
      ∧ (slowSim.iteratePure oZero 1).totalDistanceAfterRepair
          = ((1 : ℕ) : ℚ) * slowSim.distance
      ∧ (slowSim.iteratePure oZero 1).costVehicleMalfunction
            (oZero.malfThreshold (slowSim.iteratePure oZero 1).numberOfCourses)
            (oZero.repairCost (slowSim.iteratePure oZero 1).numberOfCourses)
          = (if ((1 : ℕ) : ℚ) * slowSim.distance
                > oZero.malfThreshold (slowSim.iteratePure oZero 1).numberOfCourses
             then oZero.repairCost (slowSim.iteratePure oZero 1).numberOfCourses
             else 0) :=
  c8_distance_never_reset slowSim oZero 1 _ _ rfl rfl rfl

/-- C9 witness. -/
theorem c9_cost_totality_witness :
    (∃ r, (sC 0).calculateCosts oZero = Except.ok r)
      ∧ ({ pPaidZero with numberOfCourses := 3 } : DriverSim).costCaughtByPolice 0 0
          = Except.error .divByZero :=
  ⟨((c9_cost_totality slowSim).1.mpr ⟨by decide, fun _ => by decide⟩) oZero 0,
   ((c9_cost_totality pPaidZero).2 3 0 0 (by decide) (by decide)).mpr ⟨by decide, by decide⟩⟩

/-- C10 witness. -/
theorem c10_penalty_witness :
    (pEveryCourseFine.iteratePure oFine5 0).totalPenaltyPoints
        ≤ (pEveryCourseFine.iteratePure oFine5 1).totalPenaltyPoints
      ∧ (((pEveryCourseFine.iteratePure oFine5 1).totalPenaltyPoints
              = (pEveryCourseFine.iteratePure oFine5 0).totalPenaltyPoints
            ∧ (pEveryCourseFine.iteratePure oFine5 1).finePaidNumberOfCourses
              = (pEveryCourseFine.iteratePure oFine5 0).finePaidNumberOfCourses
            ∧ (pEveryCourseFine.iteratePure oFine5 0).policePaidHit = false)
        ∨ ((pEveryCourseFine.iteratePure oFine5 0).policePaidHit = true
            ∧ (pEveryCourseFine.iteratePure oFine5 1).totalPenaltyPoints
              = (pEveryCourseFine.iteratePure oFine5 0).totalPenaltyPoints
                + oFine5.pointsDraw (pEveryCourseFine.iteratePure oFine5 0).numberOfCourses
            ∧ 1 ≤ oFine5.pointsDraw (pEveryCourseFine.iteratePure oFine5 0).numberOfCourses
            ∧ oFine5.pointsDraw (pEveryCourseFine.iteratePure oFine5 0).numberOfCourses ≤ 5
            ∧ (pEveryCourseFine.iteratePure oFine5 1).finePaidNumberOfCourses
              = (pEveryCourseFine.iteratePure oFine5 0).finePaidNumberOfCourses + 1)) :=
  c10_penalty_increments pEveryCourseFine oFine5 0 _ _ rfl rfl
    (fun _ => show (1 : ℕ) ≤ 5 ∧ (5 : ℕ) ≤ 5 by decide)
